import Mathlib

/-!
Verification of the Text-to-speech repository's audio playback clock and
PCM export pipeline (src/App.tsx, src/utils/audioExport.ts), shallowly
embedded in Lean.  Floating point samples, clock readings and offsets are
modelled as rationals; byte sequences as lists of naturals below 256.
-/

namespace T2S

/-- Truncation toward zero of a rational, modelling the JavaScript `| 0`
integer conversion (ToInt32 truncates toward zero; all values fed to it
here fit in 32 bits, so no wrap-around occurs). -/
def ratTrunc (q : ℚ) : ℤ := q.num.tdiv q.den

/-- The decoded audio buffer handed back by the synthesis capability
(the host `AudioBuffer`): per-channel float sample data, a frame count
(`buffer.length`), and a sample rate.  In a well-shaped buffer every
channel holds exactly `numFrames` samples. -/
structure AudioBuffer where
  channels : List (List ℚ)
  numFrames : ℕ
  sampleRate : ℕ
deriving DecidableEq

/-- `buffer.numberOfChannels`. -/
def AudioBuffer.numberOfChannels (b : AudioBuffer) : ℕ := b.channels.length

/-- `buffer.duration` = frame count over sample rate, in seconds. -/
def AudioBuffer.duration (b : AudioBuffer) : ℚ :=
  (b.numFrames : ℚ) / (b.sampleRate : ℚ)

/-- A buffer is well shaped when every channel carries exactly
`numFrames` samples. -/
def AudioBuffer.wellShaped (b : AudioBuffer) : Prop :=
  ∀ ch ∈ b.channels, ch.length = b.numFrames

instance (b : AudioBuffer) : Decidable b.wellShaped := by
  unfold AudioBuffer.wellShaped; infer_instance

/-- `Math.max(-1, Math.min(1, s))` — clamp a sample to `[-1, 1]`
(src/utils/audioExport.ts line 41). -/
def clampSample (s : ℚ) : ℚ := max (-1) (min 1 s)

/-- `(sample < 0 ? sample * 0x8000 : sample * 0x7fff) | 0` applied to the
clamped sample — scale to a signed 16-bit integer with truncation
(src/utils/audioExport.ts line 42). -/
def quantizeSample (s : ℚ) : ℤ :=
  let c := clampSample s
  ratTrunc (if c < 0 then c * 0x8000 else c * 0x7fff)

/-- Little-endian bytes of `view.setUint16(pos, n, true)`. -/
def uint16LE (n : ℕ) : List ℕ := [n % 256, n / 256 % 256]

/-- Little-endian bytes of `view.setUint32(pos, n, true)`. -/
def uint32LE (n : ℕ) : List ℕ :=
  [n % 256, n / 256 % 256, n / 65536 % 256, n / 16777216 % 256]

/-- Little-endian bytes of `view.setInt16(pos, z, true)`: the two's
complement low 16 bits of `z`. -/
def int16LE (z : ℤ) : List ℕ := uint16LE (z % 65536).toNat

/-- The 16-bit value emitted for channel `ch` at frame `off`.  Reading past
the end of a channel's data yields JavaScript `undefined`, which the
clamp/scale chain turns into `NaN` and `| 0` turns into `0`. -/
def sampleAt (b : AudioBuffer) (ch off : ℕ) : ℤ :=
  match (b.channels.getD ch []).get? off with
  | some s => quantizeSample s
  | none => 0

/-- One interleaved frame: one 16-bit sample per channel, in channel
order (the inner `for` loop of src/utils/audioExport.ts lines 39-45). -/
def frameBytes (b : AudioBuffer) (off : ℕ) : List ℕ :=
  (List.range b.numberOfChannels).flatMap fun ch => int16LE (sampleAt b ch off)

/-- The interleaved data section: the `while (pos < length)` loop of
src/utils/audioExport.ts lines 38-47, which runs exactly `numFrames`
times (each pass writes `2 * numberOfChannels` bytes). -/
def wavDataBytes (b : AudioBuffer) : List ℕ :=
  (List.range b.numFrames).flatMap (frameBytes b)

/-- `length = buffer.length * numOfChan * 2 + 44`
(src/utils/audioExport.ts line 7). -/
def wavByteLength (b : AudioBuffer) : ℕ :=
  b.numFrames * b.numberOfChannels * 2 + 44

/-- The 44-byte WAVE header written by src/utils/audioExport.ts
lines 17-31, field for field (the data-chunk length is written while
`pos = 40`, hence `length - 40 - 4`). -/
def wavHeaderBytes (b : AudioBuffer) : List ℕ :=
  uint32LE 0x46464952 ++
  uint32LE (wavByteLength b - 8) ++
  uint32LE 0x45564157 ++
  uint32LE 0x20746d66 ++
  uint32LE 16 ++
  uint16LE 1 ++
  uint16LE b.numberOfChannels ++
  uint32LE b.sampleRate ++
  uint32LE (b.sampleRate * 2 * b.numberOfChannels) ++
  uint16LE (b.numberOfChannels * 2) ++
  uint16LE 16 ++
  uint32LE 0x61746164 ++
  uint32LE (wavByteLength b - 44)

/-- A `Blob`: raw bytes plus a MIME type string. -/
structure Blob where
  bytes : List ℕ
  type : String
deriving DecidableEq

/-- `audioBufferToWav` (src/utils/audioExport.ts lines 5-60): header then
interleaved 16-bit PCM data, wrapped in a Blob of type `audio/wav`. -/
def audioBufferToWav (b : AudioBuffer) : Blob :=
  ⟨wavHeaderBytes b ++ wavDataBytes b, "audio/wav"⟩

/-- `audioBufferToMp3` (src/utils/audioExport.ts lines 78-85): declared
fallback that returns the WAV encoding unchanged. -/
def audioBufferToMp3 (b : AudioBuffer) : Blob := audioBufferToWav b

/-- The byte of `l` at index `i` (0 past the end). -/
def byteAt (l : List ℕ) (i : ℕ) : ℕ := l.getD i 0

/-- Decode an unsigned little-endian 16-bit field at offset `i`. -/
def decodeU16 (l : List ℕ) (i : ℕ) : ℕ := byteAt l i + 256 * byteAt l (i + 1)

/-- Decode an unsigned little-endian 32-bit field at offset `i`. -/
def decodeU32 (l : List ℕ) (i : ℕ) : ℕ :=
  byteAt l i + 256 * byteAt l (i + 1) + 65536 * byteAt l (i + 2) +
    16777216 * byteAt l (i + 3)

/-- Decode a signed (two's complement) little-endian 16-bit field at
offset `i`. -/
def decodeS16 (l : List ℕ) (i : ℕ) : ℤ :=
  let u := decodeU16 l i
  if u < 32768 then (u : ℤ) else (u : ℤ) - 65536

/-! ## The playback session (src/App.tsx)

State held by the `App` component: the text and configuration supplied by
the UI, the playback clock anchors, the synthesis-cache fingerprints and
the loaded buffer.  The `AudioContext` device clock is passed to each
operation as the rational `now`; audio source nodes are identified by
generation tokens drawn from a counter (`activeSource` plays the role of
`sourceRef.current`, object identity becoming token equality). -/

/-- The mutable session state of src/App.tsx. -/
structure Session where
  text : String
  voiceName : String
  playbackSpeed : ℚ
  isPlaying : Bool
  playbackPosition : ℚ
  playbackStartedAt : ℚ
  playbackOffsetAtStart : ℚ
  lastGeneratedText : String
  lastGeneratedVoice : Option String
  audioBuffer : Option AudioBuffer
  activeSource : Option ℕ
  nextSourceId : ℕ
deriving DecidableEq

/-- `audioBufferRef.current?.duration || 0` (src/App.tsx line 100). -/
def bufferDuration (s : Session) : ℚ :=
  match s.audioBuffer with
  | some b => b.duration
  | none => 0

/-- `getCurrentOffset` (src/App.tsx lines 97-101).  When playing, the
context exists (it is created by `startPlayback` before `isPlaying` is
set), so the `!audioContextRef.current` early return never fires then. -/
def getCurrentOffset (s : Session) (now : ℚ) : ℚ :=
  if s.isPlaying then
    min (s.playbackOffsetAtStart + (now - s.playbackStartedAt) * s.playbackSpeed)
      (bufferDuration s)
  else s.playbackPosition

/-- `stopAudio` (src/App.tsx lines 103-115). -/
def stopAudio (s : Session) (now : ℚ) (resetPosition : Bool) : Session :=
  let s1 :=
    match s.activeSource with
    | some _ =>
        { (if resetPosition then s
           else { s with playbackPosition := getCurrentOffset s now }) with
          activeSource := none }
    | none => s
  let s2 := if resetPosition then { s1 with playbackPosition := 0 } else s1
  { s2 with isPlaying := false }

/-- `startPlayback` (src/App.tsx lines 117-145): no-op without a buffer;
otherwise stop the old source, create a fresh source (a new generation
token), clamp the requested offset to `[0, duration]`, and re-anchor the
clock. -/
def startPlayback (s : Session) (now : ℚ) (offset : ℚ) : Session :=
  match s.audioBuffer with
  | none => s
  | some b =>
    let s1 := stopAudio s now false
    let startOffset := max 0 (min offset b.duration)
    { s1 with
      activeSource := some s1.nextSourceId,
      nextSourceId := s1.nextSourceId + 1,
      playbackStartedAt := now,
      playbackOffsetAtStart := startOffset,
      isPlaying := true }

/-- The `source.onended` callback registered by `startPlayback`
(src/App.tsx lines 130-136), fired here by the source with token `g`:
only if that source is still the active one does the session transition
to stopped with the position reset to 0. -/
def onEnded (s : Session) (g : ℕ) : Session :=
  if s.activeSource = some g then
    { s with isPlaying := false, playbackPosition := 0 }
  else s

/-- The whitespace code points removed by JavaScript
`String.prototype.trim` (WhiteSpace ∪ LineTerminator). -/
def jsWhitespaceChars : List Char :=
  ['\t', '\n', '\x0b', '\x0c', '\r', ' ', ' ', ' ', ' ',
   ' ', ' ', ' ', ' ', ' ', ' ', ' ',
   ' ', ' ', ' ', ' ', ' ', ' ', ' ',
   '　', '﻿']

/-- Whether `c` is JavaScript whitespace. -/
def isJsWhitespace (c : Char) : Bool := jsWhitespaceChars.contains c

/-- JavaScript `text.trim()`. -/
def jsTrim (t : String) : String :=
  ⟨((t.toList.dropWhile fun c => isJsWhitespace c).reverse.dropWhile
      fun c => isJsWhitespace c).reverse⟩

/-- `playAudio` (src/App.tsx lines 147-169).  `synth` is the value the
awaited `generateSpeech(text, config.voiceName)` call would resolve to
(`none` on failure).  Returns the new session state and whether the
external synthesis capability was invoked. -/
def playAudio (s : Session) (now : ℚ) (synth : Option AudioBuffer) :
    Session × Bool :=
  if jsTrim s.text = "" then (s, false)
  else if s.isPlaying then (stopAudio s now false, false)
  else if s.text ≠ s.lastGeneratedText ∨ s.lastGeneratedVoice ≠ some s.voiceName ∨
      s.audioBuffer.isNone then
    match synth with
    | some buffer =>
        (startPlayback
          { s with
            audioBuffer := some buffer,
            lastGeneratedText := s.text,
            lastGeneratedVoice := some s.voiceName } now 0, true)
    | none => (s, true)
  else (startPlayback s now s.playbackPosition, false)

/-- `handleSkip` (src/App.tsx lines 171-179). -/
def handleSkip (s : Session) (now : ℚ) (seconds : ℚ) : Session :=
  match s.audioBuffer with
  | none => s
  | some b =>
    let current := getCurrentOffset s now
    let newPos := max 0 (min (current + seconds) b.duration)
    let s1 := { s with playbackPosition := newPos }
    if s1.isPlaying then startPlayback s1 now newPos else s1

/-- The playback speed slider's `onChange` handler (src/App.tsx
line 365): stores the new multiplier (and forwards it to the live source
node's `playbackRate`); it does not touch `playbackStartedAtRef`,
`playbackOffsetAtStartRef` or `playbackPosition`. -/
def setPlaybackSpeed (s : Session) (newVal : ℚ) : Session :=
  { s with playbackSpeed := newVal }

/-- The file handed to the browser for download. -/
structure ExportFile where
  filename : String
  blob : Blob
deriving DecidableEq

/-- `` `t2s_audio_${Date.now()}.${format}` `` (src/App.tsx line 198). -/
def exportFilename (nowMs : ℕ) (format : String) : String :=
  "t2s_audio_" ++ toString nowMs ++ "." ++ format

/-- `handleExport` (src/App.tsx lines 181-204).  `synth` is the value an
invoked `generateSpeech` call would resolve to; `nowMs` is `Date.now()`.
Returns the new state, whether synthesis was invoked, and the downloaded
file (none when the local `buffer` variable ends up null).  Note the
source assigns `audioBufferRef.current = buffer` and overwrites both
fingerprints before the `if (!buffer) return` check. -/
def handleExport (s : Session) (synth : Option AudioBuffer)
    (format : String) (nowMs : ℕ) : Session × Bool × Option ExportFile :=
  let res : Session × Option AudioBuffer × Bool :=
    if s.text ≠ s.lastGeneratedText ∨ s.audioBuffer.isNone then
      ({ s with
          audioBuffer := synth,
          lastGeneratedText := s.text,
          lastGeneratedVoice := some s.voiceName }, synth, true)
    else (s, s.audioBuffer, false)
  match res with
  | (s1, none, called) => (s1, called, none)
  | (s1, some b, called) =>
      (s1, called, some ⟨exportFilename nowMs format, audioBufferToWav b⟩)

/-- A synthesis-triggering transport operation: pressing play, or
requesting an export. -/
inductive TransportOp where
  | play
  | exportReq
deriving DecidableEq

/-- Run one transport operation, returning the new session state and
whether the external synthesis capability was invoked.  (The export
format is irrelevant to synthesis behaviour.) -/
def runTransport (o : TransportOp) (s : Session) (now : ℚ)
    (synth : Option AudioBuffer) : Session × Bool :=
  match o with
  | .play => playAudio s now synth
  | .exportReq =>
      let e := handleExport s synth "wav" 0
      (e.1, e.2.1)

/-! ## Specification-side definitions and concrete fixtures -/

/-- The quantization rule exactly as the specification words it: clamp
`s` to `[-1, 1]`, multiply by 32768 if `s < 0` else by 32767, then
convert to integer by truncation. -/
def quantizeSpec (s : ℚ) : ℤ :=
  let c := max (-1) (min 1 s)
  ratTrunc (if s < 0 then c * 32768 else c * 32767)

/-- The specification's cache-gate condition: the requested
`(text, voice)` pair differs from the stored fingerprints, or no buffer
is held. -/
def cacheMiss (s : Session) : Prop :=
  s.text ≠ s.lastGeneratedText ∨ some s.voiceName ≠ s.lastGeneratedVoice ∨
    s.audioBuffer = none

/-- The stored offsets of a session lie within the current buffer's
duration (the precondition under which the position-bound invariant
holds). -/
def posWithin (s : Session) : Prop :=
  0 ≤ s.playbackPosition ∧ s.playbackPosition ≤ bufferDuration s ∧
    0 ≤ s.playbackOffsetAtStart

/-- The state update both `playAudio` and `handleExport` perform on a
successful synthesis: buffer and fingerprints replaced together. -/
def withSynth (s : Session) (b : AudioBuffer) : Session :=
  { s with
    audioBuffer := some b
    lastGeneratedText := s.text
    lastGeneratedVoice := some s.voiceName }

/-- A neutral baseline session: empty text, voice Kore, speed 1, stopped
at 0, nothing loaded, no fingerprints — the initial React state. -/
def session0 : Session :=
  { text := ""
    voiceName := "Kore"
    playbackSpeed := 1
    isPlaying := false
    playbackPosition := 0
    playbackStartedAt := 0
    playbackOffsetAtStart := 0
    lastGeneratedText := ""
    lastGeneratedVoice := none
    audioBuffer := none
    activeSource := none
    nextSourceId := 0 }

/-- The specification's round-trip buffer: 4 frames, 2 channels, sample
rate 24000, float values `[0.0, 1.0, -1.0, 0.5]` in each channel. -/
def bufRT : AudioBuffer := ⟨[[0, 1, -1, 1/2], [0, 1, -1, 1/2]], 4, 24000⟩

/-- A previously synthesized buffer (1 second at rate 2). -/
def bufPrev : AudioBuffer := ⟨[[0, 1]], 2, 2⟩

/-- A 100-second buffer (frame count 100 at rate 1). -/
def buf100 : AudioBuffer := ⟨[], 100, 1⟩

/-- A 10-second buffer. -/
def bufTen : AudioBuffer := ⟨[], 10, 1⟩

/-- A 2-second buffer. -/
def bufTwo : AudioBuffer := ⟨[], 2, 1⟩

/-- A zero-channel buffer — an invalid shape per the specification. -/
def bufNoChan : AudioBuffer := ⟨[], 3, 8000⟩

/-- A buffer with mismatched per-channel lengths — an invalid shape per
the specification (channel 1 is short). -/
def bufMismatch : AudioBuffer := ⟨[[1], []], 1, 8000⟩

/-- A session holding a previously synthesized buffer with fingerprints
`("old", Kore)`, whose text has since been edited to `"new"`. -/
def sessionC1 : Session :=
  { session0 with
    text := "new"
    lastGeneratedText := "old"
    lastGeneratedVoice := some "Kore"
    audioBuffer := some bufPrev }

/-- A session playing the 100-second buffer from offset 0 at speed 1,
anchored at device time 0. -/
def sessionC2 : Session :=
  { session0 with
    isPlaying := true
    audioBuffer := some buf100
    activeSource := some 0
    nextSourceId := 1 }

/-- A fresh session with text `"hi"` and nothing synthesized yet. -/
def sessionFresh : Session := { session0 with text := "hi" }

/-- A session stopped at offset 8 of the 10-second buffer, whose text
has since been edited to `"new"`. -/
def sessionC6 : Session :=
  { session0 with
    text := "new"
    lastGeneratedText := "old"
    playbackPosition := 8
    audioBuffer := some bufTen }

/-- A session playing the 10-second buffer. -/
def sessionPlay : Session :=
  { session0 with
    isPlaying := true
    audioBuffer := some bufTen
    activeSource := some 0
    nextSourceId := 1 }

/-- A session whose cache fingerprints match its current text and voice
(a synthesis already happened for `("hi", Kore)`). -/
def sessionHit : Session :=
  { session0 with
    text := "hi"
    lastGeneratedText := "hi"
    lastGeneratedVoice := some "Kore"
    audioBuffer := some bufPrev }

/-- A session with an active source of token 5. -/
def sessionSrc : Session :=
  { session0 with
    audioBuffer := some bufTen
    activeSource := some 5
    nextSourceId := 6 }

/-! ## General lemmas about the embedded definitions -/

/-- Truncation toward zero is the ceiling for negative arguments and the
floor otherwise. -/
theorem ratTrunc_eq (q : ℚ) : ratTrunc q = if q < 0 then ⌈q⌉ else ⌊q⌋ := by
  unfold ratTrunc
  rcases lt_or_le q 0 with h | h
  · have hnum : q.num < 0 := Rat.num_neg.2 h
    have h1 : q.num.tdiv q.den = -((-q.num).tdiv q.den) := by
      rw [← Int.neg_tdiv, neg_neg]
    have h2 : (-q.num).tdiv (q.den : ℤ) = (-q.num) / (q.den : ℤ) :=
      Int.tdiv_eq_ediv (by omega) (by positivity)
    have h3 : ⌈q⌉ = -⌊-q⌋ := by rw [Int.floor_neg, neg_neg]
    rw [if_pos h, h1, h2, h3, Rat.floor_def, Rat.neg_num, Rat.neg_den]
  · have hnum : 0 ≤ q.num := Rat.num_nonneg.2 h
    rw [if_neg (not_lt.2 h), Rat.floor_def, Int.tdiv_eq_ediv hnum (by positivity)]

theorem clampSample_mem (s : ℚ) : -1 ≤ clampSample s ∧ clampSample s ≤ 1 := by
  unfold clampSample
  constructor
  · exact le_max_left _ _
  · exact max_le (by norm_num) (min_le_left _ _)

/-- The quantized value always fits in a signed 16-bit integer. -/
theorem quantizeSample_mem (s : ℚ) :
    -32768 ≤ quantizeSample s ∧ quantizeSample s ≤ 32767 := by
  obtain ⟨hlo, hhi⟩ := clampSample_mem s
  unfold quantizeSample
  rw [ratTrunc_eq]
  set c := clampSample s with hc
  by_cases hneg : c < 0
  · rw [if_pos hneg]
    have hx : c * 0x8000 < 0 := by nlinarith
    have hm : (-32768 : ℚ) ≤ c * 0x8000 := by nlinarith
    rw [if_pos hx]
    constructor
    · have h1 : (-32768 : ℚ) ≤ (⌈c * 0x8000⌉ : ℚ) := le_trans hm (Int.le_ceil _)
      exact_mod_cast h1
    · have h2 : ⌈c * 0x8000⌉ ≤ (0 : ℤ) := Int.ceil_le.2 (by exact_mod_cast hx.le)
      omega
  · rw [if_neg hneg]
    push_neg at hneg
    have hm : (0 : ℚ) ≤ c * 0x7fff := by positivity
    have hM : c * 0x7fff ≤ 32767 := by nlinarith
    rw [if_neg (not_lt.2 hm)]
    constructor
    · have : (0 : ℤ) ≤ ⌊c * 0x7fff⌋ := Int.floor_nonneg.2 hm
      omega
    · have h1 : (⌊c * 0x7fff⌋ : ℚ) ≤ 32767 := le_trans (Int.floor_le _) hM
      exact_mod_cast h1

/-- Every emitted 16-bit value fits in a signed 16-bit integer. -/
theorem sampleAt_mem (b : AudioBuffer) (ch off : ℕ) :
    -32768 ≤ sampleAt b ch off ∧ sampleAt b ch off ≤ 32767 := by
  unfold sampleAt
  cases (b.channels.getD ch []).get? off with
  | none => simp
  | some s => exact quantizeSample_mem s

theorem uint16LE_length (n : ℕ) : (uint16LE n).length = 2 := rfl

theorem uint32LE_length (n : ℕ) : (uint32LE n).length = 4 := rfl

theorem int16LE_length (z : ℤ) : (int16LE z).length = 2 := rfl

theorem byteAt_drop (l : List ℕ) (i j : ℕ) :
    byteAt (l.drop i) j = byteAt l (i + j) := by
  unfold byteAt
  rw [List.getD_eq_getD_get?, List.getD_eq_getD_get?, List.get?_drop]

theorem decodeU16_drop (l : List ℕ) (i j : ℕ) :
    decodeU16 (l.drop i) j = decodeU16 l (i + j) := by
  unfold decodeU16
  simp only [byteAt_drop, Nat.add_assoc]

theorem decodeU32_drop (l : List ℕ) (i j : ℕ) :
    decodeU32 (l.drop i) j = decodeU32 l (i + j) := by
  unfold decodeU32
  simp only [byteAt_drop, Nat.add_assoc]

theorem decodeS16_drop (l : List ℕ) (i j : ℕ) :
    decodeS16 (l.drop i) j = decodeS16 l (i + j) := by
  unfold decodeS16
  rw [decodeU16_drop]

theorem decodeU16_uint16LE (n : ℕ) (rest : List ℕ) (h : n < 65536) :
    decodeU16 (uint16LE n ++ rest) 0 = n := by
  simp only [uint16LE, decodeU16, byteAt, List.cons_append, List.getD_cons_zero,
    List.getD_cons_succ]
  omega

theorem decodeU32_uint32LE (n : ℕ) (rest : List ℕ) (h : n < 4294967296) :
    decodeU32 (uint32LE n ++ rest) 0 = n := by
  simp only [uint32LE, decodeU32, byteAt, List.cons_append, List.getD_cons_zero,
    List.getD_cons_succ]
  omega

theorem decodeS16_int16LE (z : ℤ) (rest : List ℕ) (h1 : -32768 ≤ z)
    (h2 : z ≤ 32767) : decodeS16 (int16LE z ++ rest) 0 = z := by
  simp only [int16LE, uint16LE, decodeS16, decodeU16, byteAt, List.cons_append,
    List.getD_cons_zero, List.getD_cons_succ]
  omega

/-- Dropping `i` blocks of constant size `k` from a `flatMap` lands at
the start of block `i`. -/
theorem flatMap_drop_const {α β : Type} (g : α → List β) (k : ℕ)
    (hk : ∀ x, (g x).length = k) :
    ∀ (l : List α) (i : ℕ) (x : α), l.get? i = some x →
      (l.flatMap g).drop (i * k) = g x ++ (l.drop (i + 1)).flatMap g := by
  intro l
  induction l with
  | nil => intro i x hx; simp at hx
  | cons y ys ih =>
      intro i x hx
      cases i with
      | zero =>
          simp only [List.get?_cons_zero, Option.some.injEq] at hx
          subst hx
          simp
      | succ n =>
          simp only [List.get?_cons_succ] at hx
          have hsplit : (n + 1) * k = k + n * k := by ring
          rw [List.flatMap_cons, hsplit, ← List.drop_drop,
            List.drop_left' (hk y), ih n x hx]
          simp

/-- The per-frame byte block has constant length `2 * numberOfChannels`. -/
theorem frameBytes_length (b : AudioBuffer) (off : ℕ) :
    (frameBytes b off).length = 2 * b.numberOfChannels := by
  unfold frameBytes
  rw [List.length_flatMap]
  have : (List.map (List.length ∘ fun ch => int16LE (sampleAt b ch off))
      (List.range b.numberOfChannels)) =
      List.replicate b.numberOfChannels 2 := by
    apply List.eq_replicate.2
    refine ⟨by simp, ?_⟩
    intro a ha
    simp only [List.mem_map] at ha
    obtain ⟨ch, _, hch⟩ := ha
    simp [← hch, int16LE_length, Function.comp]
  rw [this, List.sum_replicate]
  simp [Nat.mul_comm]

/-- The data section holds `numFrames` frames of `2 * numberOfChannels`
bytes each. -/
theorem wavDataBytes_length (b : AudioBuffer) :
    (wavDataBytes b).length = b.numFrames * (2 * b.numberOfChannels) := by
  unfold wavDataBytes
  rw [List.length_flatMap]
  have : (List.map (List.length ∘ frameBytes b) (List.range b.numFrames)) =
      List.replicate b.numFrames (2 * b.numberOfChannels) := by
    apply List.eq_replicate.2
    refine ⟨by simp, ?_⟩
    intro a ha
    simp only [List.mem_map] at ha
    obtain ⟨f, _, hf⟩ := ha
    simp [← hf, frameBytes_length, Function.comp]
  rw [this, List.sum_replicate]
  simp

theorem wavHeaderBytes_length (b : AudioBuffer) :
    (wavHeaderBytes b).length = 44 := rfl

theorem audioBufferToWav_length (b : AudioBuffer) :
    (audioBufferToWav b).bytes.length =
      44 + b.numFrames * b.numberOfChannels * 2 := by
  show (wavHeaderBytes b ++ wavDataBytes b).length = _
  rw [List.length_append, wavHeaderBytes_length, wavDataBytes_length]
  ring

/-- The signed 16-bit field at byte offset `44 + (f*C + ch)*2` of the
encoder's output decodes to the value emitted for channel `ch` at frame
`f` — for every buffer, well shaped or not. -/
theorem wav_sample_decode (b : AudioBuffer) (f ch : ℕ) (hf : f < b.numFrames)
    (hch : ch < b.numberOfChannels) :
    decodeS16 (audioBufferToWav b).bytes
        (44 + (f * b.numberOfChannels + ch) * 2) = sampleAt b ch f := by
  have h44 : (audioBufferToWav b).bytes.drop 44 = wavDataBytes b :=
    List.drop_left' (wavHeaderBytes_length b)
  have hm : (f * b.numberOfChannels + ch) * 2 =
      f * (2 * b.numberOfChannels) + ch * 2 := by ring
  rw [← decodeS16_drop, h44, hm]
  have hstep1 : (wavDataBytes b).drop (f * (2 * b.numberOfChannels)) =
      frameBytes b f ++ ((List.range b.numFrames).drop (f + 1)).flatMap
        (frameBytes b) := by
    apply flatMap_drop_const (frameBytes b) (2 * b.numberOfChannels)
      (frameBytes_length b) (List.range b.numFrames) f f
    rw [List.get?_range hf]
  rw [← decodeS16_drop, hstep1]
  have hstep2 : (frameBytes b f).drop (ch * 2) =
      int16LE (sampleAt b ch f) ++
        ((List.range b.numberOfChannels).drop (ch + 1)).flatMap
          (fun c => int16LE (sampleAt b c f)) := by
    apply flatMap_drop_const (fun c => int16LE (sampleAt b c f)) 2
      (fun c => int16LE_length _) (List.range b.numberOfChannels) ch ch
    rw [List.get?_range hch]
  have hle : ch * 2 ≤ (frameBytes b f).length := by
    rw [frameBytes_length]; omega
  have hsplit : (frameBytes b f ++
        ((List.range b.numFrames).drop (f + 1)).flatMap (frameBytes b)).drop
        (ch * 2) =
      int16LE (sampleAt b ch f) ++
        (((List.range b.numberOfChannels).drop (ch + 1)).flatMap
            (fun c => int16LE (sampleAt b c f)) ++
          ((List.range b.numFrames).drop (f + 1)).flatMap (frameBytes b)) := by
    rw [List.drop_append_of_le_length hle, hstep2, List.append_assoc]
  have h0 : decodeS16 (frameBytes b f ++
        ((List.range b.numFrames).drop (f + 1)).flatMap (frameBytes b))
        (ch * 2 + 0) = sampleAt b ch f := by
    rw [← decodeS16_drop, hsplit]
    exact decodeS16_int16LE _ _ (sampleAt_mem b ch f).1 (sampleAt_mem b ch f).2
  simpa using h0

theorem bufferDuration_nonneg (s : Session) : 0 ≤ bufferDuration s := by
  unfold bufferDuration
  cases s.audioBuffer with
  | none => norm_num
  | some b =>
      unfold AudioBuffer.duration
      positivity

/-- `stopAudio` never touches the text, configuration, fingerprints,
buffer or source counter, and always clears `isPlaying`. -/
theorem stopAudio_fields (s : Session) (now : ℚ) (r : Bool) :
    (stopAudio s now r).text = s.text ∧
    (stopAudio s now r).voiceName = s.voiceName ∧
    (stopAudio s now r).playbackSpeed = s.playbackSpeed ∧
    (stopAudio s now r).lastGeneratedText = s.lastGeneratedText ∧
    (stopAudio s now r).lastGeneratedVoice = s.lastGeneratedVoice ∧
    (stopAudio s now r).audioBuffer = s.audioBuffer ∧
    (stopAudio s now r).nextSourceId = s.nextSourceId ∧
    (stopAudio s now r).isPlaying = false := by
  unfold stopAudio
  cases s.activeSource <;> cases r <;> simp

/-- With a loaded buffer, `startPlayback` stops the old source and
re-anchors the clock at the clamped offset. -/
theorem startPlayback_some (s : Session) (now off : ℚ) (b : AudioBuffer)
    (hb : s.audioBuffer = some b) :
    startPlayback s now off =
      { stopAudio s now false with
        activeSource := some (stopAudio s now false).nextSourceId,
        nextSourceId := (stopAudio s now false).nextSourceId + 1,
        playbackStartedAt := now,
        playbackOffsetAtStart := max 0 (min off b.duration),
        isPlaying := true } := by
  unfold startPlayback
  rw [hb]

/-- `startPlayback` never touches the text, configuration, fingerprints
or buffer. -/
theorem startPlayback_fields (s : Session) (now off : ℚ) :
    (startPlayback s now off).text = s.text ∧
    (startPlayback s now off).voiceName = s.voiceName ∧
    (startPlayback s now off).playbackSpeed = s.playbackSpeed ∧
    (startPlayback s now off).lastGeneratedText = s.lastGeneratedText ∧
    (startPlayback s now off).lastGeneratedVoice = s.lastGeneratedVoice ∧
    (startPlayback s now off).audioBuffer = s.audioBuffer := by
  obtain ⟨h1, h2, h3, h4, h5, h6, h7, h8⟩ := stopAudio_fields s now false
  unfold startPlayback
  cases hb : s.audioBuffer with
  | none => simp [hb]
  | some b => simp_all

/-- With a loaded buffer, `startPlayback` starts playing. -/
theorem startPlayback_isPlaying (s : Session) (now off : ℚ) (b : AudioBuffer)
    (hb : s.audioBuffer = some b) : (startPlayback s now off).isPlaying = true := by
  rw [startPlayback_some s now off b hb]

theorem drop_chunk (l c r : List ℕ) (i k : ℕ) (hl : l.drop i = c ++ r)
    (hc : c.length = k) : l.drop (i + k) = r := by
  rw [← List.drop_drop k i l, hl, List.drop_left' hc]

theorem decodeU16_here (l t : List ℕ) (n i : ℕ) (hl : l.drop i = uint16LE n ++ t)
    (h : n < 65536) : decodeU16 l i = n := by
  have h1 : decodeU16 (l.drop i) 0 = decodeU16 l (i + 0) := decodeU16_drop l i 0
  rw [hl, decodeU16_uint16LE n t h, Nat.add_zero] at h1
  exact h1.symm

theorem decodeU32_here (l t : List ℕ) (n i : ℕ) (hl : l.drop i = uint32LE n ++ t)
    (h : n < 4294967296) : decodeU32 l i = n := by
  have h1 : decodeU32 (l.drop i) 0 = decodeU32 l (i + 0) := decodeU32_drop l i 0
  rw [hl, decodeU32_uint32LE n t h, Nat.add_zero] at h1
  exact h1.symm

theorem quantizeSample_zero : quantizeSample 0 = 0 := by
  norm_num [quantizeSample, clampSample, ratTrunc_eq, min_def, max_def]

theorem quantizeSample_one : quantizeSample 1 = 32767 := by
  norm_num [quantizeSample, clampSample, ratTrunc_eq, min_def, max_def]

theorem quantizeSample_negOne : quantizeSample (-1) = -32768 := by
  norm_num [quantizeSample, clampSample, ratTrunc_eq, min_def, max_def]
  rw [show ((-32768 : ℚ)) = ((-32768 : ℤ) : ℚ) by norm_num, Int.ceil_intCast]

theorem quantizeSample_half : quantizeSample (1/2) = 16383 := by
  norm_num [quantizeSample, clampSample, ratTrunc_eq, min_def, max_def]

/-- Clamping does not change the sign used to choose the scale factor. -/
theorem clampSample_neg_iff (s : ℚ) : clampSample s < 0 ↔ s < 0 := by
  unfold clampSample
  rw [max_lt_iff, min_lt_iff]
  constructor
  · rintro ⟨-, h | h⟩
    · norm_num at h
    · exact h
  · intro h
    exact ⟨by norm_num, Or.inr h⟩

/-- With a loaded buffer, the clock anchors set by `startPlayback`. -/
theorem startPlayback_proj (s : Session) (now off : ℚ) (b : AudioBuffer)
    (hb : s.audioBuffer = some b) :
    (startPlayback s now off).playbackOffsetAtStart = max 0 (min off b.duration) ∧
    (startPlayback s now off).playbackStartedAt = now ∧
    (startPlayback s now off).playbackSpeed = s.playbackSpeed ∧
    (startPlayback s now off).isPlaying = true ∧
    (startPlayback s now off).activeSource = some s.nextSourceId := by
  rw [startPlayback_some s now off b hb]
  obtain ⟨-, -, h3, -, -, -, h7, -⟩ := stopAudio_fields s now false
  exact ⟨rfl, rfl, h3, rfl, by rw [h7]⟩

/-- Immediately after `startPlayback`, the computed offset is the
clamped start offset (clamped again by the duration). -/
theorem getCurrentOffset_startPlayback (s : Session) (now off : ℚ)
    (b : AudioBuffer) (hb : s.audioBuffer = some b) :
    getCurrentOffset (startPlayback s now off) now =
      min (max 0 (min off b.duration)) b.duration := by
  obtain ⟨p1, p2, p3, p4, p5⟩ := startPlayback_proj s now off b hb
  have hd : bufferDuration (startPlayback s now off) = b.duration := by
    unfold bufferDuration
    rw [(startPlayback_fields s now off).2.2.2.2.2, hb]
  unfold getCurrentOffset
  rw [if_pos p4, p1, p2, hd, sub_self, zero_mul, add_zero]

/-- `handleSkip` with a loaded buffer, unfolded. -/
theorem handleSkip_some (s : Session) (now δ : ℚ) (b : AudioBuffer)
    (hb : s.audioBuffer = some b) :
    handleSkip s now δ =
      (let newPos := max 0 (min (getCurrentOffset s now + δ) b.duration)
       if ({ s with playbackPosition := newPos } : Session).isPlaying = true then
         startPlayback { s with playbackPosition := newPos } now newPos
       else { s with playbackPosition := newPos }) := by
  unfold handleSkip
  rw [hb]

/-- Whenever a transport operation invokes synthesis, the cache-gate
condition held in the pre-state. -/
theorem transport_invoked_cacheMiss (o : TransportOp) (s : Session) (now : ℚ)
    (r : Option AudioBuffer) : (runTransport o s now r).2 = true → cacheMiss s := by
  cases o with
  | play =>
      show (playAudio s now r).2 = true → cacheMiss s
      unfold playAudio
      by_cases h1 : jsTrim s.text = ""
      · rw [if_pos h1]; intro h; simp at h
      · rw [if_neg h1]
        by_cases h2 : s.isPlaying = true
        · rw [if_pos h2]; intro h; simp at h
        · rw [if_neg h2]
          by_cases h3 : s.text ≠ s.lastGeneratedText ∨
              s.lastGeneratedVoice ≠ some s.voiceName ∨ s.audioBuffer.isNone = true
          · intro _
            unfold cacheMiss
            rcases h3 with h | h | h
            · exact Or.inl h
            · exact Or.inr (Or.inl (Ne.symm h))
            · exact Or.inr (Or.inr (Option.isNone_iff_eq_none.1 h))
          · rw [if_neg h3]
            intro h
            simp at h
  | exportReq =>
      show (handleExport s r "wav" 0).2.1 = true → cacheMiss s
      unfold handleExport
      by_cases h1 : s.text ≠ s.lastGeneratedText ∨ s.audioBuffer.isNone = true
      · intro _
        unfold cacheMiss
        rcases h1 with h | h
        · exact Or.inl h
        · exact Or.inr (Or.inr (Option.isNone_iff_eq_none.1 h))
      · rw [if_neg h1]
        cases hb : s.audioBuffer with
        | none => intro h; simp at h
        | some b2 => intro h; simp at h

/-- After a transport operation whose synthesis call succeeds, the
cache-gate condition no longer holds: the buffer and both fingerprints
were replaced together. -/
theorem transport_success_no_miss (o : TransportOp) (s : Session) (now : ℚ)
    (b : AudioBuffer) (h : (runTransport o s now (some b)).2 = true) :
    ¬ cacheMiss (runTransport o s now (some b)).1 := by
  have hsynth : ¬ cacheMiss (withSynth s b) := by
    unfold cacheMiss withSynth
    push_neg
    exact ⟨rfl, rfl, by simp⟩
  cases o with
  | play =>
      replace h : (playAudio s now (some b)).2 = true := h
      show ¬ cacheMiss (playAudio s now (some b)).1
      unfold playAudio at h ⊢
      by_cases h1 : jsTrim s.text = ""
      · rw [if_pos h1] at h; simp at h
      · rw [if_neg h1] at h ⊢
        by_cases h2 : s.isPlaying = true
        · rw [if_pos h2] at h; simp at h
        · rw [if_neg h2] at h ⊢
          by_cases h3 : s.text ≠ s.lastGeneratedText ∨
              s.lastGeneratedVoice ≠ some s.voiceName ∨ s.audioBuffer.isNone = true
          · rw [if_pos h3]
            show ¬ cacheMiss (startPlayback (withSynth s b) now 0)
            obtain ⟨f1, f2, f3, f4, f5, f6⟩ :=
              startPlayback_fields (withSynth s b) now 0
            unfold cacheMiss
            push_neg
            unfold cacheMiss withSynth at hsynth
            push_neg at hsynth
            rw [f1, f2, f4, f5, f6]
            exact hsynth
          · rw [if_neg h3] at h
            simp at h
  | exportReq =>
      replace h : (handleExport s (some b) "wav" 0).2.1 = true := h
      show ¬ cacheMiss (handleExport s (some b) "wav" 0).1
      unfold handleExport at h ⊢
      by_cases h1 : s.text ≠ s.lastGeneratedText ∨ s.audioBuffer.isNone = true
      · rw [if_pos h1]
        exact hsynth
      · rw [if_neg h1] at h
        cases hb : s.audioBuffer with
        | none => rw [hb] at h; simp at h
        | some b2 => rw [hb] at h; simp at h

/-! ## Claims -/

/-- C3: the PCM encoder's sample quantization equals the specified rule
— clamp to `[-1, 1]`, multiply by 32768 for negative samples and by
32767 otherwise, convert to integer by truncation — and maps the inputs
`[0, 1, -1, 0.5]` to `[0, 32767, -32768, 16383]`. -/
theorem claim_C3 :
    (∀ s : ℚ, quantizeSample s = quantizeSpec s) ∧
    quantizeSample 0 = 0 ∧ quantizeSample 1 = 32767 ∧
    quantizeSample (-1) = -32768 ∧ quantizeSample (1/2) = 16383 := by
  refine ⟨?_, ?_, ?_, ?_, ?_⟩
  · intro s
    have hiff := clampSample_neg_iff s
    simp only [quantizeSample, quantizeSpec, clampSample] at *
    rw [if_congr hiff.symm rfl rfl]
  · exact quantizeSample_zero
  · exact quantizeSample_one
  · exact quantizeSample_negOne
  · exact quantizeSample_half

/-- C7: a playback-completion notification transitions the session to
stopped with offset 0 exactly when it belongs to the still-active
playback instance; a completion for an instance superseded by a newer
start (whose token is always fresh) changes nothing. -/
theorem claim_C7 (s : Session) (g : ℕ) (now off : ℚ) (b : AudioBuffer) :
    (s.activeSource = some g →
      onEnded s g = { s with isPlaying := false, playbackPosition := 0 }) ∧
    (s.activeSource ≠ some g → onEnded s g = s) ∧
    (g < s.nextSourceId → s.audioBuffer = some b →
      onEnded (startPlayback s now off) g = startPlayback s now off) := by
  refine ⟨?_, ?_, ?_⟩
  · intro h
    unfold onEnded
    rw [if_pos h]
  · intro h
    unfold onEnded
    rw [if_neg h]
  · intro hg hb
    have hsrc : (startPlayback s now off).activeSource = some s.nextSourceId := by
      rw [startPlayback_some s now off b hb]
      simp [(stopAudio_fields s now false).2.2.2.2.2.2.1]
    unfold onEnded
    rw [if_neg]
    rw [hsrc]
    intro h
    have : s.nextSourceId = g := by injection h
    omega

/-- Witness for C7 at a session whose active source has token 5 and
whose counter is at 6: the active completion stops and resets the
session, the stale token 4 is ignored, and after a fresh start the old
token 5 is ignored. -/
theorem claim_C7_witness :
    onEnded sessionSrc 5 =
      { sessionSrc with isPlaying := false, playbackPosition := 0 } ∧
    onEnded sessionSrc 4 = sessionSrc ∧
    onEnded (startPlayback sessionSrc 0 0) 5 = startPlayback sessionSrc 0 0 :=
  ⟨(claim_C7 sessionSrc 5 0 0 bufTen).1 rfl,
   (claim_C7 sessionSrc 4 0 0 bufTen).2.1 (by decide),
   (claim_C7 sessionSrc 5 0 0 bufTen).2.2 (by decide) rfl⟩

/-- C8: MP3 export produces byte-identical output to the WAV encoder,
and every exported file is named `t2s_audio_<millis>.<ext>` with
content-type `audio/wav` regardless of the requested format. -/
theorem claim_C8 (b : AudioBuffer) (s : Session) (r : Option AudioBuffer)
    (fmt : String) (nowMs : ℕ) (f : ExportFile) :
    audioBufferToMp3 b = audioBufferToWav b ∧
    ((handleExport s r fmt nowMs).2.2 = some f →
      f.filename = "t2s_audio_" ++ toString nowMs ++ "." ++ fmt ∧
      f.blob.type = "audio/wav") := by
  refine ⟨rfl, ?_⟩
  intro h
  unfold handleExport at h
  by_cases hc : s.text ≠ s.lastGeneratedText ∨ s.audioBuffer.isNone = true
  · rw [if_pos hc] at h
    cases r with
    | none => simp at h
    | some b2 =>
        simp only [Option.some.injEq] at h
        rw [← h]
        exact ⟨rfl, rfl⟩
  · rw [if_neg hc] at h
    cases hb : s.audioBuffer with
    | none => rw [hb] at h; simp at h
    | some b2 =>
        rw [hb] at h
        simp only [Option.some.injEq] at h
        rw [← h]
        exact ⟨rfl, rfl⟩

/-- Witness for C8: a cache-hit export at time 123 with requested format
`mp3` yields the WAV-typed blob under the timestamped name. -/
theorem claim_C8_witness :
    audioBufferToMp3 bufRT = audioBufferToWav bufRT ∧
    (ExportFile.mk (exportFilename 123 "mp3") (audioBufferToWav bufPrev)).filename =
      "t2s_audio_" ++ toString 123 ++ "." ++ "mp3" ∧
    (ExportFile.mk (exportFilename 123 "mp3") (audioBufferToWav bufPrev)).blob.type =
      "audio/wav" :=
  have h := claim_C8 bufRT sessionHit none "mp3" 123
    ⟨exportFilename 123 "mp3", audioBufferToWav bufPrev⟩
  ⟨h.1, h.2 rfl⟩

/-- C10: pressing play with text that is empty or all-whitespace is a
complete no-op — no synthesis call, no state change. -/
theorem claim_C10 (s : Session) (now : ℚ) (r : Option AudioBuffer)
    (h : ∀ c ∈ s.text.toList, isJsWhitespace c = true) :
    playAudio s now r = (s, false) := by
  have hdrop : s.text.toList.dropWhile (fun c => isJsWhitespace c) = [] := by
    rw [List.dropWhile_eq_nil_iff]
    exact h
  have htrim : jsTrim s.text = "" := by
    unfold jsTrim
    rw [hdrop]
    rfl
  unfold playAudio
  rw [if_pos htrim]

/-- Witness for C10: play on a session whose text is three spaces does
nothing and does not invoke synthesis. -/
theorem claim_C10_witness :
    playAudio { session0 with text := "   " } 0 (some bufPrev) =
      ({ session0 with text := "   " }, false) :=
  claim_C10 { session0 with text := "   " } 0 (some bufPrev) (by decide)

/-- C1 (code bug): a failed synthesis during export does NOT leave the
session untouched — `handleExport` writes the null result into the
buffer slot and overwrites both fingerprints before checking for
failure.  Evaluated at a session holding buffer `bufPrev` with
fingerprints `("old", Kore)` and edited text `"new"`: after an export
whose synthesis returns no buffer, the previous buffer is gone and the
fingerprints read `("new", Kore)`. -/
theorem claim_C1_bug :
    sessionC1.audioBuffer = some bufPrev ∧
    sessionC1.lastGeneratedText = "old" ∧
    (handleExport sessionC1 none "wav" 0).2.1 = true ∧
    (handleExport sessionC1 none "wav" 0).1.audioBuffer = none ∧
    (handleExport sessionC1 none "wav" 0).1.lastGeneratedText = "new" ∧
    (handleExport sessionC1 none "wav" 0).1.lastGeneratedVoice = some "Kore" :=
  ⟨rfl, rfl, rfl, rfl, rfl, rfl⟩

/-- C4: for every well-shaped buffer with `C` channels, `N` frames and
sample rate `R` (sizes within their header fields), the encoder emits
exactly `44 + N*C*2` bytes: a 44-byte header carrying `RIFF`, total size
minus 8, `WAVE`, an `fmt ` chunk of length 16, format 1 (PCM), channel
count `C`, sample rate `R`, byte rate `R*C*2`, block align `C*2`,
bits-per-sample 16, the `data` tag and the data size `N*C*2`, all
little-endian — followed by `N` frames of `C` consecutive little-endian
signed 16-bit quantized samples in channel order. -/
theorem claim_C4 (b : AudioBuffer) (hws : b.wellShaped)
    (hsz : b.numFrames * b.numberOfChannels * 2 + 44 ≤ 4294967296)
    (hR : b.sampleRate < 4294967296)
    (hBR : b.sampleRate * 2 * b.numberOfChannels < 4294967296)
    (hC : b.numberOfChannels * 2 < 65536) :
    (audioBufferToWav b).bytes.length =
      44 + b.numFrames * b.numberOfChannels * 2 ∧
    (audioBufferToWav b).bytes.take 4 = [0x52, 0x49, 0x46, 0x46] ∧
    decodeU32 (audioBufferToWav b).bytes 4 =
      b.numFrames * b.numberOfChannels * 2 + 36 ∧
    ((audioBufferToWav b).bytes.drop 8).take 4 = [0x57, 0x41, 0x56, 0x45] ∧
    ((audioBufferToWav b).bytes.drop 12).take 4 = [0x66, 0x6d, 0x74, 0x20] ∧
    decodeU32 (audioBufferToWav b).bytes 16 = 16 ∧
    decodeU16 (audioBufferToWav b).bytes 20 = 1 ∧
    decodeU16 (audioBufferToWav b).bytes 22 = b.numberOfChannels ∧
    decodeU32 (audioBufferToWav b).bytes 24 = b.sampleRate ∧
    decodeU32 (audioBufferToWav b).bytes 28 =
      b.sampleRate * b.numberOfChannels * 2 ∧
    decodeU16 (audioBufferToWav b).bytes 32 = b.numberOfChannels * 2 ∧
    decodeU16 (audioBufferToWav b).bytes 34 = 16 ∧
    ((audioBufferToWav b).bytes.drop 36).take 4 = [0x64, 0x61, 0x74, 0x61] ∧
    decodeU32 (audioBufferToWav b).bytes 40 =
      b.numFrames * b.numberOfChannels * 2 ∧
    (∀ f ch, f < b.numFrames → ch < b.numberOfChannels →
      decodeS16 (audioBufferToWav b).bytes
        (44 + (f * b.numberOfChannels + ch) * 2) =
        quantizeSample ((b.channels.getD ch []).getD f 0)) := by
  have e0 : (audioBufferToWav b).bytes.drop 0 =
      uint32LE 0x46464952 ++ (uint32LE (wavByteLength b - 8) ++
      (uint32LE 0x45564157 ++ (uint32LE 0x20746d66 ++ (uint32LE 16 ++
      (uint16LE 1 ++ (uint16LE b.numberOfChannels ++ (uint32LE b.sampleRate ++
      (uint32LE (b.sampleRate * 2 * b.numberOfChannels) ++
      (uint16LE (b.numberOfChannels * 2) ++ (uint16LE 16 ++
      (uint32LE 0x61746164 ++ (uint32LE (wavByteLength b - 44) ++
      wavDataBytes b)))))))))))) := by
    rw [List.drop_zero]
    show wavHeaderBytes b ++ wavDataBytes b = _
    simp only [wavHeaderBytes, List.append_assoc]
  have e4 := drop_chunk _ _ _ 0 4 e0 (uint32LE_length _)
  have e8 := drop_chunk _ _ _ 4 4 e4 (uint32LE_length _)
  have e12 := drop_chunk _ _ _ 8 4 e8 (uint32LE_length _)
  have e16 := drop_chunk _ _ _ 12 4 e12 (uint32LE_length _)
  have e20 := drop_chunk _ _ _ 16 4 e16 (uint32LE_length _)
  have e22 := drop_chunk _ _ _ 20 2 e20 (uint16LE_length _)
  have e24 := drop_chunk _ _ _ 22 2 e22 (uint16LE_length _)
  have e28 := drop_chunk _ _ _ 24 4 e24 (uint32LE_length _)
  have e32 := drop_chunk _ _ _ 28 4 e28 (uint32LE_length _)
  have e34 := drop_chunk _ _ _ 32 2 e32 (uint16LE_length _)
  have e36 := drop_chunk _ _ _ 34 2 e34 (uint16LE_length _)
  have hout : (audioBufferToWav b).bytes = uint32LE 0x46464952 ++
      (uint32LE (wavByteLength b - 8) ++ (uint32LE 0x45564157 ++
      (uint32LE 0x20746d66 ++ (uint32LE 16 ++ (uint16LE 1 ++
      (uint16LE b.numberOfChannels ++ (uint32LE b.sampleRate ++
      (uint32LE (b.sampleRate * 2 * b.numberOfChannels) ++
      (uint16LE (b.numberOfChannels * 2) ++ (uint16LE 16 ++
      (uint32LE 0x61746164 ++ (uint32LE (wavByteLength b - 44) ++
      wavDataBytes b)))))))))))) := by
    rw [← List.drop_zero (audioBufferToWav b).bytes]
    exact e0
  have hsz44 : wavByteLength b - 8 = b.numFrames * b.numberOfChannels * 2 + 36 := by
    unfold wavByteLength
    omega
  have hdsz : wavByteLength b - 44 = b.numFrames * b.numberOfChannels * 2 := by
    unfold wavByteLength
    omega
  refine ⟨audioBufferToWav_length b, ?_, ?_, ?_, ?_, ?_, ?_, ?_, ?_, ?_, ?_,
    ?_, ?_, ?_, ?_⟩
  · rw [hout]
    rfl
  · rw [decodeU32_here _ _ _ 4 e4 (by unfold wavByteLength at *; omega), hsz44]
  · rw [e8]
    rfl
  · rw [e12]
    rfl
  · exact decodeU32_here _ _ _ 16 e16 (by norm_num)
  · exact decodeU16_here _ _ _ 20 e20 (by norm_num)
  · exact decodeU16_here _ _ _ 22 e22 (by omega)
  · exact decodeU32_here _ _ _ 24 e24 hR
  · rw [decodeU32_here _ _ _ 28 e28 hBR]
    ring
  · exact decodeU16_here _ _ _ 32 e32 hC
  · exact decodeU16_here _ _ _ 34 e34 (by norm_num)
  · rw [e36]
    rfl
  · rw [decodeU32_here _ _ _ 40 (drop_chunk _ _ _ 36 4 e36 (uint32LE_length _))
      (by unfold wavByteLength at *; omega), hdsz]
  · intro f ch hf hch
    rw [wav_sample_decode b f ch hf hch]
    unfold sampleAt
    have hch' : ch < b.channels.length := hch
    have hgd : b.channels.getD ch [] = b.channels[ch] :=
      List.getD_eq_getElem b.channels [] hch'
    have hlen : (b.channels[ch]).length = b.numFrames :=
      hws _ (List.getElem_mem hch')
    have hf' : f < (b.channels.getD ch []).length := by
      rw [hgd, hlen]
      exact hf
    rw [List.get?_eq_getElem?, List.getElem?_eq_getElem hf',
      List.getD_eq_getElem _ _ hf']

/-- Witness for C4 at the specification's round-trip buffer (4 frames,
2 channels, rate 24000, samples `[0, 1, -1, 1/2]`): 60 bytes, channel
count 2, sample rate 24000, byte rate 96000, and decoded samples 32767,
-32768 and 16383 at frames 1, 2 and 3. -/
theorem claim_C4_witness :
    (audioBufferToWav bufRT).bytes.length = 60 ∧
    decodeU16 (audioBufferToWav bufRT).bytes 22 = 2 ∧
    decodeU32 (audioBufferToWav bufRT).bytes 24 = 24000 ∧
    decodeU32 (audioBufferToWav bufRT).bytes 28 = 96000 ∧
    decodeS16 (audioBufferToWav bufRT).bytes 48 = 32767 ∧
    decodeS16 (audioBufferToWav bufRT).bytes 52 = -32768 ∧
    decodeS16 (audioBufferToWav bufRT).bytes 56 = 16383 := by
  have h := claim_C4 bufRT (by decide) (by decide) (by decide) (by decide)
    (by decide)
  obtain ⟨h1, -, -, -, -, -, -, h8, h9, h10, -, -, -, -, hs⟩ := h
  refine ⟨h1, h8, h9, h10, ?_, ?_, ?_⟩
  · exact (hs 1 0 (by decide) (by decide)).trans quantizeSample_one
  · exact (hs 2 0 (by decide) (by decide)).trans quantizeSample_negOne
  · exact (hs 3 0 (by decide) (by decide)).trans quantizeSample_half

/-- C9 counterexample: invalid shapes do not make the encoder fail.  The
encoder is a total function with no error outcome; on the zero-channel
buffer it succeeds, returning an ordinary 44-byte WAV blob (its bare
header), and on the mismatched-length buffer it succeeds with the full
`44 + N*C*2` bytes. -/
theorem claim_C9_counterexample :
    bufNoChan.numberOfChannels = 0 ∧
    audioBufferToWav bufNoChan = Blob.mk (wavHeaderBytes bufNoChan) "audio/wav" ∧
    (audioBufferToWav bufNoChan).bytes.length = 44 ∧
    ¬ bufMismatch.wellShaped ∧
    (audioBufferToWav bufMismatch).bytes.length = 48 := by
  refine ⟨rfl, ?_, ?_, by decide, ?_⟩
  · show Blob.mk (wavHeaderBytes bufNoChan ++ wavDataBytes bufNoChan) _ = _
    rw [show wavDataBytes bufNoChan = [] from rfl, List.append_nil]
  · rw [audioBufferToWav_length]
    rfl
  · rw [audioBufferToWav_length]
    rfl

/-- C9 (amended): the encoder has no failure mode at all — every input
buffer, well shaped or not, totally succeeds with `44 + N*C*2` bytes; a
sample read past the end of a short channel (the mismatched-length case)
is emitted as 0. -/
theorem claim_C9_amended (b : AudioBuffer) (ch off : ℕ) :
    (audioBufferToWav b).bytes.length =
      44 + b.numFrames * b.numberOfChannels * 2 ∧
    (ch < b.numberOfChannels → off < b.numFrames →
      (b.channels.getD ch []).length ≤ off →
      decodeS16 (audioBufferToWav b).bytes
        (44 + (off * b.numberOfChannels + ch) * 2) = 0) := by
  refine ⟨audioBufferToWav_length b, ?_⟩
  intro hch hoff hlen
  rw [wav_sample_decode b off ch hoff hch]
  unfold sampleAt
  rw [List.get?_eq_none.2 hlen]

/-- Witness for C9 at the mismatched buffer `[[1], []]` with 1 frame:
the encode succeeds with 48 bytes and channel 1's missing sample decodes
as 0. -/
theorem claim_C9_amended_witness :
    (audioBufferToWav bufMismatch).bytes.length =
      44 + bufMismatch.numFrames * bufMismatch.numberOfChannels * 2 ∧
    decodeS16 (audioBufferToWav bufMismatch).bytes
      (44 + (0 * bufMismatch.numberOfChannels + 1) * 2) = 0 :=
  have h := claim_C9_amended bufMismatch 1 0
  ⟨h.1, h.2 (by decide) (by decide) (by decide)⟩

/-- C5 counterexample: with a fresh session (no buffer) and a failing
synthesizer, two consecutive plays with identical `(text, voice)` and no
intervening edits invoke the external synthesis capability twice — the
failed first call leaves no buffer, so the second request synthesizes
again.  The unconditional "at most once" reading of the claim is
therefore false. -/
theorem claim_C5_counterexample :
    (playAudio sessionFresh 0 none).2 = true ∧
    (playAudio (playAudio sessionFresh 0 none).1 0 none).2 = true :=
  ⟨rfl, rfl⟩

/-- C5 (amended): synthesis is invoked only when the requested
`(text, voice)` pair differs from the stored fingerprints or no buffer
is held; and two consecutive transport requests with identical
`(text, voice)` and no intervening edits invoke synthesis at most once
provided the synthesis capability succeeds (returns a buffer). -/
theorem claim_C5_amended :
    (∀ (o : TransportOp) (s : Session) (now : ℚ) (r : Option AudioBuffer),
      (runTransport o s now r).2 = true → cacheMiss s) ∧
    (∀ (o1 o2 : TransportOp) (s : Session) (now1 now2 : ℚ) (b : AudioBuffer),
      (if (runTransport o1 s now1 (some b)).2 then 1 else 0) +
        (if (runTransport o2 (runTransport o1 s now1 (some b)).1 now2
              (some b)).2 then 1 else 0) ≤ 1) := by
  refine ⟨transport_invoked_cacheMiss, ?_⟩
  intro o1 o2 s now1 now2 b
  by_cases h1 : (runTransport o1 s now1 (some b)).2 = true
  · have hno := transport_success_no_miss o1 s now1 b h1
    have h2 : ¬ (runTransport o2 (runTransport o1 s now1 (some b)).1 now2
        (some b)).2 = true := by
      intro hc
      exact hno (transport_invoked_cacheMiss o2 _ now2 (some b) hc)
    rw [if_pos h1, if_neg h2]
  · rw [if_neg h1]
    split <;> norm_num

/-- Witness for C5: the fresh session misses the cache (discharging the
only-when implication at a successful play), and a play-play pair with a
succeeding synthesizer costs at most one synthesis call. -/
theorem claim_C5_amended_witness :
    cacheMiss sessionFresh ∧
    (if (runTransport .play sessionFresh 0 (some bufPrev)).2 then 1 else 0) +
      (if (runTransport .play (runTransport .play sessionFresh 0
            (some bufPrev)).1 0 (some bufPrev)).2 then 1 else 0) ≤ 1 :=
  ⟨claim_C5_amended.1 .play sessionFresh 0 (some bufPrev) rfl,
   claim_C5_amended.2 .play .play sessionFresh 0 0 bufPrev⟩

/-- C6 counterexample: exporting after an edit can replace the buffer
with a shorter one while keeping the old stopped position, leaving the
reported position outside `[0, duration]`.  Session `sessionC6` is
stopped at offset 8 of a 10-second buffer; an export whose synthesis
returns the 2-second buffer leaves the position at 8 > 2. -/
theorem claim_C6_counterexample :
    (handleExport sessionC6 (some bufTwo) "wav" 0).1.audioBuffer = some bufTwo ∧
    bufferDuration (handleExport sessionC6 (some bufTwo) "wav" 0).1 <
      getCurrentOffset (handleExport sessionC6 (some bufTwo) "wav" 0).1 0 := by
  have hbuf : (handleExport sessionC6 (some bufTwo) "wav" 0).1.audioBuffer =
      some bufTwo := rfl
  have hplay : (handleExport sessionC6 (some bufTwo) "wav" 0).1.isPlaying =
      false := rfl
  have hpos : (handleExport sessionC6 (some bufTwo) "wav" 0).1.playbackPosition =
      8 := rfl
  refine ⟨hbuf, ?_⟩
  unfold getCurrentOffset bufferDuration
  rw [hplay, hbuf, hpos]
  norm_num [bufTwo, AudioBuffer.duration]

/-- C6 (amended): the reported position stays within
`[0, buffer.durationSeconds]` for every session whose stored stopped
offset and start anchor lie within the current buffer's duration (which
the playback-clock operations preserve, but which export's buffer
replacement may break); `computeCurrentOffset` returns the stored offset
when stopped and the clamped clock formula when playing; `start` clamps
its offset argument to `[0, duration]`; and `skip` clamps the current
offset plus the delta to `[0, duration]`. -/
theorem claim_C6_amended (s : Session) (now δ off : ℚ) (b : AudioBuffer) :
    (posWithin s → s.playbackStartedAt ≤ now → 0 ≤ s.playbackSpeed →
      0 ≤ getCurrentOffset s now ∧ getCurrentOffset s now ≤ bufferDuration s) ∧
    (s.isPlaying = true →
      getCurrentOffset s now =
        min (s.playbackOffsetAtStart + (now - s.playbackStartedAt) * s.playbackSpeed)
          (bufferDuration s)) ∧
    (s.audioBuffer = some b →
      (startPlayback s now off).playbackOffsetAtStart =
        max 0 (min off (bufferDuration s))) ∧
    (s.audioBuffer = some b →
      getCurrentOffset (handleSkip s now δ) now =
        max 0 (min (getCurrentOffset s now + δ) (bufferDuration s))) := by
  have hdur : s.audioBuffer = some b → bufferDuration s = b.duration := by
    intro hb
    unfold bufferDuration
    rw [hb]
  refine ⟨?_, ?_, ?_, ?_⟩
  · rintro ⟨hp0, hpd, ho0⟩ hnow hsp
    unfold getCurrentOffset
    by_cases hpl : s.isPlaying = true
    · rw [if_pos hpl]
      constructor
      · apply le_min
        · have : 0 ≤ (now - s.playbackStartedAt) * s.playbackSpeed :=
            mul_nonneg (by linarith) hsp
          linarith
        · exact bufferDuration_nonneg s
      · exact min_le_right _ _
    · rw [if_neg hpl]
      exact ⟨hp0, hpd⟩
  · intro hpl
    unfold getCurrentOffset
    rw [if_pos hpl]
  · intro hb
    rw [(startPlayback_proj s now off b hb).1, hdur hb]
  · intro hb
    rw [handleSkip_some s now δ b hb, hdur hb]
    have hd0 : 0 ≤ b.duration := by
      rw [← hdur hb]
      exact bufferDuration_nonneg s
    set newPos := max 0 (min (getCurrentOffset s now + δ) b.duration) with hnp
    have hnp0 : 0 ≤ newPos := le_max_left _ _
    have hnpd : newPos ≤ b.duration := max_le hd0 (min_le_right _ _)
    show getCurrentOffset (if ({ s with playbackPosition := newPos } :
        Session).isPlaying = true then startPlayback
        { s with playbackPosition := newPos } now newPos
      else { s with playbackPosition := newPos }) now = newPos
    by_cases hpl : s.isPlaying = true
    · rw [if_pos (show ({ s with playbackPosition := newPos } :
          Session).isPlaying = true from hpl)]
      rw [getCurrentOffset_startPlayback { s with playbackPosition := newPos }
        now newPos b hb]
      rw [min_eq_left hnpd, max_eq_right hnp0, min_eq_left hnpd]
    · rw [if_neg (show ¬ ({ s with playbackPosition := newPos } :
          Session).isPlaying = true from hpl)]
      unfold getCurrentOffset
      rw [if_neg (show ¬ ({ s with playbackPosition := newPos } :
          Session).isPlaying = true from hpl)]

/-- Witness for C6 at a session playing the 10-second buffer anchored at
time 0, queried at device time 5, with a skip of 3 and a start at 4. -/
theorem claim_C6_amended_witness :
    (0 ≤ getCurrentOffset sessionPlay 5 ∧
      getCurrentOffset sessionPlay 5 ≤ bufferDuration sessionPlay) ∧
    getCurrentOffset sessionPlay 5 =
      min (sessionPlay.playbackOffsetAtStart +
        (5 - sessionPlay.playbackStartedAt) * sessionPlay.playbackSpeed)
        (bufferDuration sessionPlay) ∧
    (startPlayback sessionPlay 5 4).playbackOffsetAtStart =
      max 0 (min 4 (bufferDuration sessionPlay)) ∧
    getCurrentOffset (handleSkip sessionPlay 5 3) 5 =
      max 0 (min (getCurrentOffset sessionPlay 5 + 3)
        (bufferDuration sessionPlay)) :=
  have h := claim_C6_amended sessionPlay 5 3 4 bufTen
  ⟨h.1 (by norm_num [posWithin, sessionPlay, session0, bufferDuration, bufTen,
      AudioBuffer.duration])
    (by norm_num [sessionPlay, session0]) (by norm_num [sessionPlay, session0]),
   h.2.1 rfl, h.2.2.1 rfl, h.2.2.2 rfl⟩

/-- C2 (code bug): the playback-speed slider does not re-anchor the
clock.  In a session playing from offset 0 anchored at device time 0 at
speed 1, the computed offset at device time 10 is 10; changing the speed
to 3 at that same instant makes the computed offset jump to 30 — a
forward jump of 20 seconds with zero elapsed real time, violating
continuity. -/
theorem claim_C2_bug :
    getCurrentOffset sessionC2 10 = 10 ∧
    getCurrentOffset (setPlaybackSpeed sessionC2 3) 10 = 30 := by
  constructor <;>
    norm_num [getCurrentOffset, setPlaybackSpeed, sessionC2, session0,
      bufferDuration, buf100, AudioBuffer.duration, min_def]

end T2S
